import Mathlib

/-!
Verification of the Pareto-frontier filter and category aggregation of the
mutual-fund dashboard (`reports/pages/1_🎯_Efficient_Frontier.py` and
`reports/Category_Explorer.py`), shallowly embedded over exact rationals.
NaN-capable columns are modelled with `Option ℚ` (`none` = NaN); the filter
itself is specified on fully populated points, as the pages guarantee by
dropping NaN rows first.
-/

/-- A fully populated 2-D metric point: x is the minimize-axis (risk/cost),
y is the maximize-axis (return/benefit). -/
structure Point where
  x : ℚ
  y : ℚ
deriving DecidableEq, Repr

instance : Inhabited Point := ⟨⟨0, 0⟩⟩

/-- The domination test inside the inner loop of `is_pareto_efficient`
(lines 157-165): point `pj` dominates point `pi` iff
`(x_j <= x_i and y_j > y_i) or (x_j < x_i and y_j >= y_i)`. -/
def dominates (pj pi : Point) : Bool :=
  (decide (pj.x ≤ pi.x) && decide (pj.y > pi.y)) ||
  (decide (pj.x < pi.x) && decide (pj.y ≥ pi.y))

/-- `is_pareto_efficient(df, x_col, y_col)` (lines 148-169): for each index
`i`, scan all indices `j ≠ i`; `i` is efficient iff no `j` dominates it.
The Python early `break` on the first dominating `j` is `List.any`. -/
def is_pareto_efficient (pts : List Point) : List Bool :=
  (List.finRange pts.length).map (fun i =>
    ! (List.finRange pts.length).any (fun j =>
        decide (i ≠ j) && dominates (pts.get j) (pts.get i)))

/-- A record of a per-category group as `weighted_avg` in
`Category_Explorer.py` sees it: the metric value of the aggregated column
and the row's `aum_cr` weight. -/
structure Row where
  m : ℚ
  aum : ℚ
deriving DecidableEq, Repr

/-- `weighted_avg(group, col)` (`Category_Explorer.py` lines 95-97):
`(group[col] * weights).sum() / weights.sum()` when `weights.sum() > 0`,
else `group[col].mean()`. -/
def weighted_avg (g : List Row) : ℚ :=
  if (g.map Row.aum).sum > 0 then
    (g.map (fun r => r.m * r.aum)).sum / (g.map Row.aum).sum
  else
    (g.map Row.m).sum / (g.length : ℚ)

/-- A raw fund record as loaded from the parquet file, restricted to the
columns the frontier computation touches; `none` models a NaN cell. -/
structure RawRecord where
  x : Option ℚ
  y : Option ℚ
  aum : Option ℚ
deriving DecidableEq, Repr

/-- The per-row effect of `df['aum_cr'] = df['aum_cr'].fillna(0)` in
`load_data` (lines 12-16): a NaN AUM becomes 0, other columns untouched. -/
def fillAum (r : RawRecord) : RawRecord :=
  { r with aum := some (r.aum.getD 0) }

/-- `load_data` (lines 12-16), modulo the parquet read: fill NaN AUM with 0
on every row. -/
def load_data (rs : List RawRecord) : List RawRecord :=
  rs.map fillAum

/-- `get_filtered_data(dataframe, x_col, y_col)` (lines 144-146):
`dataframe.dropna(subset=[x_col, y_col, 'aum_cr'])` keeps exactly the rows
whose x, y and aum cells are all populated. -/
def get_filtered_data (rs : List RawRecord) : List RawRecord :=
  rs.filter (fun r => r.x.isSome && r.y.isSome && r.aum.isSome)

/-- The frontier statistics block of the page (lines 197-274): if no funds
survive the filters the page warns and `st.stop()`s (modelled as `none`);
otherwise it computes the frontier, `efficient_count`, `total_count` and the
efficiency rate `efficient_count / total_count * 100`. -/
def frontierStats (pts : List Point) : Option (ℕ × ℕ × ℚ) :=
  if pts.length = 0 then
    none
  else
    let eff := is_pareto_efficient pts
    let efficient_count := (eff.filter id).length
    let total_count := pts.length
    some (efficient_count, total_count,
          (efficient_count : ℚ) / (total_count : ℚ) * 100)

/-! ### Basic lemmas about the filter -/

theorem length_is_pareto_efficient (pts : List Point) :
    (is_pareto_efficient pts).length = pts.length := by
  simp [is_pareto_efficient]

theorem lt_length_is_pareto {pts : List Point} {i : ℕ}
    (hi : i < pts.length) : i < (is_pareto_efficient pts).length := by
  rw [length_is_pareto_efficient]; exact hi

theorem get_is_pareto_efficient (pts : List Point) (i : ℕ)
    (hi : i < pts.length) :
    (is_pareto_efficient pts).get ⟨i, lt_length_is_pareto hi⟩ =
    ! (List.finRange pts.length).any (fun j =>
        decide ((⟨i, hi⟩ : Fin pts.length) ≠ j) &&
        dominates (pts.get j) (pts.get ⟨i, hi⟩)) := by
  simp [is_pareto_efficient, List.get_eq_getElem, List.getElem_map,
    List.getElem_finRange]

/-- `dominates` is irreflexive: both disjuncts need a strict inequality. -/
theorem dominates_irrefl (p : Point) : dominates p p = false := by
  simp [dominates]

/-- Entry `i` of the output is `true` iff no index `j ≠ i` dominates `i`. -/
theorem is_pareto_efficient_get_iff (pts : List Point) (i : ℕ)
    (hi : i < pts.length) :
    (is_pareto_efficient pts).get ⟨i, lt_length_is_pareto hi⟩ = true ↔
    ¬ ∃ j : Fin pts.length, (j : ℕ) ≠ i ∧
        dominates (pts.get j) (pts.get ⟨i, hi⟩) = true := by
  rw [get_is_pareto_efficient]
  constructor
  · intro h hex
    obtain ⟨j, hj, hd⟩ := hex
    rw [Bool.not_eq_true', List.any_eq_false] at h
    have hfalse := h j (List.mem_finRange j)
    have hne : (⟨i, hi⟩ : Fin pts.length) ≠ j := fun he => hj (by rw [← he])
    rw [decide_eq_true hne, hd] at hfalse
    exact absurd hfalse (by simp)
  · intro h
    rw [Bool.not_eq_true', List.any_eq_false]
    intro j _
    by_cases hji : (⟨i, hi⟩ : Fin pts.length) = j
    · simp [hji]
    · have hdec : decide ((⟨i, hi⟩ : Fin pts.length) ≠ j) = true :=
        decide_eq_true hji
      have hd : dominates (pts.get j) (pts.get ⟨i, hi⟩) = false := by
        by_contra hd'
        rw [Bool.not_eq_false] at hd'
        exact h ⟨j, fun hval => hji (Fin.ext hval).symm, hd'⟩
      simp only [hdec, Bool.true_and, Bool.not_eq_true]
      simpa using hd

/-- Unfolding of the domination test into the spec's two inequality
disjuncts. -/
theorem dominates_eq_true_iff (pj pi : Point) :
    dominates pj pi = true ↔
      (pj.x ≤ pi.x ∧ pi.y < pj.y) ∨ (pj.x < pi.x ∧ pi.y ≤ pj.y) := by
  simp [dominates]

/-- A point of minimal x whose y is maximal among the minimal-x points is
never dominated, hence marked efficient. -/
theorem minx_maxy_efficient (pts : List Point) (i : ℕ) (hi : i < pts.length)
    (hminx : ∀ j : Fin pts.length, (pts.get ⟨i, hi⟩).x ≤ (pts.get j).x)
    (hmaxy : ∀ j : Fin pts.length,
      (pts.get j).x = (pts.get ⟨i, hi⟩).x →
      (pts.get j).y ≤ (pts.get ⟨i, hi⟩).y) :
    (is_pareto_efficient pts).get ⟨i, lt_length_is_pareto hi⟩ = true := by
  rw [is_pareto_efficient_get_iff]
  rintro ⟨j, -, hd⟩
  rw [dominates_eq_true_iff] at hd
  rcases hd with ⟨hxle, hylt⟩ | ⟨hxlt, -⟩
  · have hxeq : (pts.get j).x = (pts.get ⟨i, hi⟩).x :=
      le_antisymm hxle (hminx j)
    exact absurd hylt (not_lt.mpr (hmaxy j hxeq))
  · exact absurd hxlt (not_lt.mpr (hminx j))

/-- C1: For every ordered collection of N points with fully populated
numeric (x, y) pairs, `is_pareto_efficient` returns a boolean sequence of
length N whose entry i is true iff there is no other index j ≠ i with
(x_j ≤ x_i and y_j > y_i) or (x_j < x_i and y_j ≥ y_i). -/
theorem c1_pareto_contract (pts : List Point) (i : ℕ) (hi : i < pts.length) :
    (is_pareto_efficient pts).length = pts.length ∧
    ((is_pareto_efficient pts).get ⟨i, lt_length_is_pareto hi⟩ = true ↔
      ¬ ∃ j : ℕ, ∃ hj : j < pts.length, j ≠ i ∧
        (((pts.get ⟨j, hj⟩).x ≤ (pts.get ⟨i, hi⟩).x ∧
          (pts.get ⟨j, hj⟩).y > (pts.get ⟨i, hi⟩).y) ∨
         ((pts.get ⟨j, hj⟩).x < (pts.get ⟨i, hi⟩).x ∧
          (pts.get ⟨j, hj⟩).y ≥ (pts.get ⟨i, hi⟩).y))) := by
  refine ⟨length_is_pareto_efficient pts, ?_⟩
  rw [is_pareto_efficient_get_iff]
  apply not_congr
  constructor
  · rintro ⟨j, hjne, hd⟩
    rw [dominates_eq_true_iff] at hd
    exact ⟨j.val, j.isLt, by simpa using hjne, by
      rcases hd with ⟨h1, h2⟩ | ⟨h1, h2⟩
      · exact Or.inl ⟨by simpa using h1, by simpa using h2⟩
      · exact Or.inr ⟨by simpa using h1, by simpa using h2⟩⟩
  · rintro ⟨j, hj, hjne, hd⟩
    refine ⟨⟨j, hj⟩, hjne, ?_⟩
    rw [dominates_eq_true_iff]
    rcases hd with ⟨h1, h2⟩ | ⟨h1, h2⟩
    · exact Or.inl ⟨h1, h2⟩
    · exact Or.inr ⟨h1, h2⟩

theorem c1_pareto_contract_witness :
    (1 < [(⟨1, 5⟩ : Point), ⟨2, 4⟩].length) ∧
    ((is_pareto_efficient [⟨1, 5⟩, ⟨2, 4⟩]).length =
        [(⟨1, 5⟩ : Point), ⟨2, 4⟩].length ∧
      ((is_pareto_efficient [⟨1, 5⟩, ⟨2, 4⟩]).get
          ⟨1, lt_length_is_pareto (by decide)⟩ = true ↔
        ¬ ∃ j : ℕ, ∃ hj : j < [(⟨1, 5⟩ : Point), ⟨2, 4⟩].length, j ≠ 1 ∧
          ((([(⟨1, 5⟩ : Point), ⟨2, 4⟩].get ⟨j, hj⟩).x ≤
              ([(⟨1, 5⟩ : Point), ⟨2, 4⟩].get ⟨1, by decide⟩).x ∧
            ([(⟨1, 5⟩ : Point), ⟨2, 4⟩].get ⟨j, hj⟩).y >
              ([(⟨1, 5⟩ : Point), ⟨2, 4⟩].get ⟨1, by decide⟩).y) ∨
           (([(⟨1, 5⟩ : Point), ⟨2, 4⟩].get ⟨j, hj⟩).x <
              ([(⟨1, 5⟩ : Point), ⟨2, 4⟩].get ⟨1, by decide⟩).x ∧
            ([(⟨1, 5⟩ : Point), ⟨2, 4⟩].get ⟨j, hj⟩).y ≥
              ([(⟨1, 5⟩ : Point), ⟨2, 4⟩].get ⟨1, by decide⟩).y)))) :=
  ⟨by decide, c1_pareto_contract [⟨1, 5⟩, ⟨2, 4⟩] 1 (by decide)⟩

/-- C5: On [(1,5),(2,4),(1,5)] the filter returns [true, false, true]:
both copies of (1,5) are efficient and (2,4) is dominated. -/
theorem c5_scenario1 :
    is_pareto_efficient [⟨1, 5⟩, ⟨2, 4⟩, ⟨1, 5⟩] = [true, false, true] := by
  decide

/-- C6: the filter on an empty input collection returns an empty boolean
sequence. -/
theorem c6_empty_input : is_pareto_efficient [] = [] := rfl

/-- C9: the filter is a deterministic pure function of its input: running
it twice on the same collection yields the same boolean sequence, and it
only produces a new parallel sequence (of the input's length). -/
theorem c9_deterministic (pts : List Point) :
    is_pareto_efficient pts = is_pareto_efficient pts ∧
    (is_pareto_efficient pts).length = pts.length :=
  ⟨rfl, length_is_pareto_efficient pts⟩

/-- C10: the domination predicate is irreflexive and asymmetric, and in
fact also transitive, so it is a strict order on any set of NaN-free
points. -/
theorem c10_strict_order :
    (∀ p : Point, dominates p p = false) ∧
    (∀ p q : Point, dominates q p = true → dominates p q = false) ∧
    (∀ p q r : Point, dominates r q = true → dominates q p = true →
      dominates r p = true) := by
  refine ⟨fun p => by simp [dominates], ?_, ?_⟩
  · intro p q h
    rw [dominates_eq_true_iff] at h
    rw [← Bool.not_eq_true, dominates_eq_true_iff]
    rintro (⟨h1, h2⟩ | ⟨h1, h2⟩) <;>
      rcases h with ⟨h3, h4⟩ | ⟨h3, h4⟩ <;> linarith
  · intro p q r hrq hqp
    rw [dominates_eq_true_iff] at hrq hqp ⊢
    rcases hrq with ⟨h1, h2⟩ | ⟨h1, h2⟩ <;>
      rcases hqp with ⟨h3, h4⟩ | ⟨h3, h4⟩
    · exact Or.inl ⟨le_trans h1 h3, lt_trans h4 h2⟩
    · exact Or.inl ⟨le_trans h1 (le_of_lt h3), lt_of_le_of_lt h4 h2⟩
    · exact Or.inl ⟨le_of_lt (lt_of_lt_of_le h1 h3), lt_of_lt_of_le h4 h2⟩
    · exact Or.inr ⟨lt_trans h1 h3, le_trans h4 h2⟩

theorem c10_strict_order_witness :
    dominates ⟨1, 5⟩ ⟨2, 4⟩ = true ∧ dominates ⟨2, 4⟩ ⟨1, 5⟩ = false :=
  ⟨by decide, c10_strict_order.2.1 ⟨2, 4⟩ ⟨1, 5⟩ (by decide)⟩

/-- C2: on a non-empty NaN-free collection the filter marks at least one
point efficient; in particular any point of minimal x whose y is maximal
among the minimal-x points is marked efficient. -/
theorem c2_frontier_nonempty (pts : List Point) (hne : pts ≠ []) :
    (∃ i : ℕ, ∃ hi : i < pts.length,
      (is_pareto_efficient pts).get ⟨i, lt_length_is_pareto hi⟩ = true) ∧
    (∀ i : ℕ, ∀ hi : i < pts.length,
      (∀ j : ℕ, ∀ hj : j < pts.length,
        (pts.get ⟨i, hi⟩).x ≤ (pts.get ⟨j, hj⟩).x) →
      (∀ j : ℕ, ∀ hj : j < pts.length,
        (pts.get ⟨j, hj⟩).x = (pts.get ⟨i, hi⟩).x →
        (pts.get ⟨j, hj⟩).y ≤ (pts.get ⟨i, hi⟩).y) →
      (is_pareto_efficient pts).get ⟨i, lt_length_is_pareto hi⟩ = true) := by
  constructor
  · have hn : 0 < pts.length := List.length_pos.mpr hne
    obtain ⟨i0, -, hmin⟩ :=
      Finset.exists_min_image (Finset.univ : Finset (Fin pts.length))
        (fun j => (pts.get j).x) ⟨⟨0, hn⟩, Finset.mem_univ _⟩
    obtain ⟨i1, hi1T, hmax⟩ :=
      Finset.exists_max_image
        (Finset.univ.filter
          (fun j : Fin pts.length => (pts.get j).x = (pts.get i0).x))
        (fun j => (pts.get j).y)
        ⟨i0, Finset.mem_filter.mpr ⟨Finset.mem_univ _, rfl⟩⟩
    have hx1 : (pts.get i1).x = (pts.get i0).x :=
      (Finset.mem_filter.mp hi1T).2
    refine ⟨i1.val, i1.isLt, minx_maxy_efficient pts i1.val i1.isLt ?_ ?_⟩
    · exact fun j => le_trans (le_of_eq hx1) (hmin j (Finset.mem_univ j))
    · intro j hxj
      exact hmax j
        (Finset.mem_filter.mpr ⟨Finset.mem_univ j, hxj.trans hx1⟩)
  · intro i hi hminx hmaxy
    exact minx_maxy_efficient pts i hi
      (fun j => hminx j.val j.isLt) (fun j => hmaxy j.val j.isLt)

theorem c2_frontier_nonempty_witness :
    ([(⟨0, 0⟩ : Point)] ≠ []) ∧
    ((∃ i : ℕ, ∃ hi : i < [(⟨0, 0⟩ : Point)].length,
        (is_pareto_efficient [⟨0, 0⟩]).get
          ⟨i, lt_length_is_pareto hi⟩ = true) ∧
     (∀ i : ℕ, ∀ hi : i < [(⟨0, 0⟩ : Point)].length,
       (∀ j : ℕ, ∀ hj : j < [(⟨0, 0⟩ : Point)].length,
         ([(⟨0, 0⟩ : Point)].get ⟨i, hi⟩).x ≤
           ([(⟨0, 0⟩ : Point)].get ⟨j, hj⟩).x) →
       (∀ j : ℕ, ∀ hj : j < [(⟨0, 0⟩ : Point)].length,
         ([(⟨0, 0⟩ : Point)].get ⟨j, hj⟩).x =
             ([(⟨0, 0⟩ : Point)].get ⟨i, hi⟩).x →
           ([(⟨0, 0⟩ : Point)].get ⟨j, hj⟩).y ≤
             ([(⟨0, 0⟩ : Point)].get ⟨i, hi⟩).y) →
       (is_pareto_efficient [⟨0, 0⟩]).get
         ⟨i, lt_length_is_pareto hi⟩ = true)) :=
  ⟨by decide, c2_frontier_nonempty [⟨0, 0⟩] (by decide)⟩

/-- C3: the AUM-weighted category aggregate is Σ(m·aum)/Σ(aum) when
Σ(aum) > 0, and otherwise the unweighted arithmetic mean; with weights
[0,0,0] and metric values [10,20,30] it returns 20. -/
theorem c3_weighted_avg (g : List Row) (hne : g ≠ []) :
    ((g.map Row.aum).sum > 0 →
      weighted_avg g =
        (g.map (fun r => r.m * r.aum)).sum / (g.map Row.aum).sum) ∧
    (¬ (g.map Row.aum).sum > 0 →
      weighted_avg g = (g.map Row.m).sum / (g.length : ℚ)) ∧
    weighted_avg [⟨10, 0⟩, ⟨20, 0⟩, ⟨30, 0⟩] = 20 := by
  refine ⟨fun h => by rw [weighted_avg, if_pos h],
          fun h => by rw [weighted_avg, if_neg h], ?_⟩
  norm_num [weighted_avg]

theorem c3_weighted_avg_witness :
    ([(⟨20, 1⟩ : Row)] ≠ []) ∧
    ((([(⟨20, 1⟩ : Row)].map Row.aum).sum > 0 →
        weighted_avg [⟨20, 1⟩] =
          ([(⟨20, 1⟩ : Row)].map (fun r => r.m * r.aum)).sum /
            ([(⟨20, 1⟩ : Row)].map Row.aum).sum) ∧
     (¬ ([(⟨20, 1⟩ : Row)].map Row.aum).sum > 0 →
        weighted_avg [⟨20, 1⟩] =
          ([(⟨20, 1⟩ : Row)].map Row.m).sum /
            (([(⟨20, 1⟩ : Row)].length : ℚ))) ∧
     weighted_avg [⟨10, 0⟩, ⟨20, 0⟩, ⟨30, 0⟩] = 20) :=
  ⟨by decide, c3_weighted_avg [⟨20, 1⟩] (by decide)⟩

/-- C4: two identical points never dominate each other, and when no third
point dominates them both copies are marked efficient. -/
theorem c4_duplicate_points (pts : List Point) (i j : ℕ)
    (hi : i < pts.length) (hj : j < pts.length) (hij : i ≠ j)
    (heq : pts.get ⟨i, hi⟩ = pts.get ⟨j, hj⟩) :
    dominates (pts.get ⟨i, hi⟩) (pts.get ⟨j, hj⟩) = false ∧
    dominates (pts.get ⟨j, hj⟩) (pts.get ⟨i, hi⟩) = false ∧
    ((∀ k : ℕ, ∀ hk : k < pts.length, k ≠ i → k ≠ j →
        dominates (pts.get ⟨k, hk⟩) (pts.get ⟨i, hi⟩) = false) →
      (is_pareto_efficient pts).get ⟨i, lt_length_is_pareto hi⟩ = true ∧
      (is_pareto_efficient pts).get ⟨j, lt_length_is_pareto hj⟩ = true) := by
  refine ⟨by rw [heq]; exact dominates_irrefl _,
          by rw [← heq]; exact dominates_irrefl _, ?_⟩
  intro hthird
  constructor
  · rw [is_pareto_efficient_get_iff]
    rintro ⟨k, hkne, hd⟩
    by_cases hkj : (k : ℕ) = j
    · have hkgj : pts.get k = pts.get ⟨j, hj⟩ :=
        congrArg pts.get (Fin.ext hkj)
      rw [hkgj, ← heq, dominates_irrefl] at hd
      exact absurd hd (by decide)
    · have h2 : dominates (pts.get k) (pts.get ⟨i, hi⟩) = false := by
        simpa using hthird k.val k.isLt hkne hkj
      exact absurd (hd.symm.trans h2) (by decide)
  · rw [is_pareto_efficient_get_iff]
    rintro ⟨k, hkne, hd⟩
    rw [← heq] at hd
    by_cases hki : (k : ℕ) = i
    · have hkgi : pts.get k = pts.get ⟨i, hi⟩ :=
        congrArg pts.get (Fin.ext hki)
      rw [hkgi, dominates_irrefl] at hd
      exact absurd hd (by decide)
    · have h2 : dominates (pts.get k) (pts.get ⟨i, hi⟩) = false := by
        simpa using hthird k.val k.isLt hki hkne
      exact absurd (hd.symm.trans h2) (by decide)

theorem c4_duplicate_points_witness :
    (0 < [(⟨1, 5⟩ : Point), ⟨2, 4⟩, ⟨1, 5⟩].length) ∧
    (2 < [(⟨1, 5⟩ : Point), ⟨2, 4⟩, ⟨1, 5⟩].length) ∧
    ((0 : ℕ) ≠ 2) ∧
    ([(⟨1, 5⟩ : Point), ⟨2, 4⟩, ⟨1, 5⟩].get ⟨0, by decide⟩ =
      [(⟨1, 5⟩ : Point), ⟨2, 4⟩, ⟨1, 5⟩].get ⟨2, by decide⟩) ∧
    (dominates ([(⟨1, 5⟩ : Point), ⟨2, 4⟩, ⟨1, 5⟩].get ⟨0, by decide⟩)
        ([(⟨1, 5⟩ : Point), ⟨2, 4⟩, ⟨1, 5⟩].get ⟨2, by decide⟩) = false ∧
     dominates ([(⟨1, 5⟩ : Point), ⟨2, 4⟩, ⟨1, 5⟩].get ⟨2, by decide⟩)
        ([(⟨1, 5⟩ : Point), ⟨2, 4⟩, ⟨1, 5⟩].get ⟨0, by decide⟩) = false ∧
     ((∀ k : ℕ, ∀ hk : k < [(⟨1, 5⟩ : Point), ⟨2, 4⟩, ⟨1, 5⟩].length,
         k ≠ 0 → k ≠ 2 →
         dominates ([(⟨1, 5⟩ : Point), ⟨2, 4⟩, ⟨1, 5⟩].get ⟨k, hk⟩)
           ([(⟨1, 5⟩ : Point), ⟨2, 4⟩, ⟨1, 5⟩].get ⟨0, by decide⟩) = false) →
       (is_pareto_efficient [⟨1, 5⟩, ⟨2, 4⟩, ⟨1, 5⟩]).get
         ⟨0, lt_length_is_pareto (by decide)⟩ = true ∧
       (is_pareto_efficient [⟨1, 5⟩, ⟨2, 4⟩, ⟨1, 5⟩]).get
         ⟨2, lt_length_is_pareto (by decide)⟩ = true)) :=
  ⟨by decide, by decide, by decide, by decide,
   c4_duplicate_points [⟨1, 5⟩, ⟨2, 4⟩, ⟨1, 5⟩] 0 2
     (by decide) (by decide) (by decide) (by decide)⟩

/-- C7: whenever the page reaches the efficiency-rate metric, the
empty-filtered-set case was already short-circuited, so the total count is
the positive number of filtered points and the rate is the well-defined
ratio times 100. -/
theorem c7_rate_guard (pts : List Point) (s : ℕ × ℕ × ℚ)
    (h : frontierStats pts = some s) :
    0 < pts.length ∧ s.2.1 = pts.length ∧ 0 < s.2.1 ∧
    ((s.2.1 : ℚ) ≠ 0 ∧ s.2.2 = (s.1 : ℚ) / (s.2.1 : ℚ) * 100) := by
  by_cases hz : pts.length = 0
  · simp [frontierStats, hz] at h
  · simp only [frontierStats, if_neg hz] at h
    obtain rfl := Option.some.inj h
    exact ⟨Nat.pos_of_ne_zero hz, rfl, Nat.pos_of_ne_zero hz,
           Nat.cast_ne_zero.mpr hz, rfl⟩

theorem c7_rate_guard_witness :
    frontierStats [(⟨0, 0⟩ : Point)] = some (1, 1, 100) ∧
    (0 < [(⟨0, 0⟩ : Point)].length ∧
     ((1 : ℕ), (1 : ℕ), (100 : ℚ)).2.1 = [(⟨0, 0⟩ : Point)].length ∧
     0 < ((1 : ℕ), (1 : ℕ), (100 : ℚ)).2.1 ∧
     (((((1 : ℕ), (1 : ℕ), (100 : ℚ)).2.1 : ℕ) : ℚ) ≠ 0 ∧
      ((1 : ℕ), (1 : ℕ), (100 : ℚ)).2.2 =
        ((((1 : ℕ), (1 : ℕ), (100 : ℚ)).1 : ℕ) : ℚ) /
          ((((1 : ℕ), (1 : ℕ), (100 : ℚ)).2.1 : ℕ) : ℚ) * 100)) :=
  have h0 : frontierStats [(⟨0, 0⟩ : Point)] = some (1, 1, 100) := by
    have h : is_pareto_efficient [(⟨0, 0⟩ : Point)] = [true] := by decide
    simp [frontierStats, h]
  ⟨h0, c7_rate_guard [⟨0, 0⟩] (1, 1, 100) h0⟩

/-- C8: a row surviving the page's NaN policy (AUM filled with 0 at load,
then rows lacking x, y or AUM dropped) has fully populated x, y and AUM;
the load step touches only the AUM column. -/
theorem c8_nan_policy (rs : List RawRecord) (r : RawRecord)
    (hr : r ∈ get_filtered_data (load_data rs))
    (s : RawRecord) (hs : s ∈ rs) :
    (r.x.isSome = true ∧ r.y.isSome = true ∧ r.aum.isSome = true) ∧
    (fillAum s ∈ load_data rs ∧ (fillAum s).x = s.x ∧
      (fillAum s).y = s.y ∧ (fillAum s).aum = some (s.aum.getD 0)) := by
  refine ⟨?_, List.mem_map_of_mem fillAum hs, rfl, rfl, rfl⟩
  have hmem := List.mem_filter.mp hr
  have h3 := hmem.2
  simp only [Bool.and_eq_true] at h3
  exact ⟨h3.1.1, h3.1.2, h3.2⟩

theorem c8_nan_policy_witness :
    ((⟨some 1, some 2, some 0⟩ : RawRecord) ∈
      get_filtered_data (load_data [⟨some 1, some 2, none⟩])) ∧
    ((⟨some 1, some 2, none⟩ : RawRecord) ∈
      [(⟨some 1, some 2, none⟩ : RawRecord)]) ∧
    (((⟨some 1, some 2, some 0⟩ : RawRecord).x.isSome = true ∧
      ((⟨some 1, some 2, some 0⟩ : RawRecord)).y.isSome = true ∧
      ((⟨some 1, some 2, some 0⟩ : RawRecord)).aum.isSome = true) ∧
     (fillAum ⟨some 1, some 2, none⟩ ∈
        load_data [(⟨some 1, some 2, none⟩ : RawRecord)] ∧
      (fillAum ⟨some 1, some 2, none⟩).x =
        ((⟨some 1, some 2, none⟩ : RawRecord)).x ∧
      (fillAum ⟨some 1, some 2, none⟩).y =
        ((⟨some 1, some 2, none⟩ : RawRecord)).y ∧
      (fillAum ⟨some 1, some 2, none⟩).aum =
        some (((⟨some 1, some 2, none⟩ : RawRecord)).aum.getD 0))) :=
  ⟨by decide, by decide,
   c8_nan_policy [⟨some 1, some 2, none⟩] ⟨some 1, some 2, some 0⟩
     (by decide) ⟨some 1, some 2, none⟩ (by decide)⟩
